import Mathlib

/-!
Shallow embedding of the HAProxy exporter's scrape-parse-map pipeline
(`haproxy_exporter.go`, current revision: the first document of
`src/unnamed/part_007`).

Modelling conventions:
* Go `[]string` rows become `List String`; Go maps used as static field
  tables become association lists `List (Nat × MetricDesc)` (Go map
  iteration order is unspecified, so all theorems below are order-robust
  or quantify over the table as a list).
* `strconv.ParseInt(s, 10, 64)` and `strconv.Atoi` are modelled by
  `goParseInt`; `strconv.ParseFloat(s, 64)` is modelled by `goParseFloat`
  over `ℚ` for decimal notation (sign, digits, optional fractional part,
  optional decimal exponent).  Metric values are `ℚ`.
* The `encoding/csv` reader is abstracted into a stream of `ReadEvent`s:
  each `reader.Read()` call yields a decoded row, a `*csv.ParseError`
  (malformed line), or some other fatal error; the end of the list is
  `io.EOF`.  The transport (`fetchHTTP`/`fetchUnix`) is abstracted into
  `Option (List ReadEvent)`: `none` is a fetch error (connection error,
  timeout, or non-2xx status), `some events` a successful fetch whose body
  decodes to `events`.
-/

namespace HaproxyExp

/-- `minimumCsvFieldCount` from the source. -/
def minimumCsvFieldCount : Nat := 33

/-- `statusField` from the source. -/
def statusField : Nat := 17

/-- `qtimeMsField` from the source. -/
def qtimeMsField : Nat := 58

/-- `ctimeMsField` from the source. -/
def ctimeMsField : Nat := 59

/-- `rtimeMsField` from the source. -/
def rtimeMsField : Nat := 60

/-- `ttimeMsField` from the source. -/
def ttimeMsField : Nat := 61

/-- `parseStatusField` from the source: a `switch` on the literal status
token; everything not matched by the two case lists falls through to the
final `return 0`. -/
def parseStatusField (value : String) : Int :=
  if value = "UP" ∨ value = "UP 1/3" ∨ value = "UP 2/3" ∨ value = "OPEN" ∨
      value = "no check" then
    1
  else if value = "DOWN" ∨ value = "DOWN 1/2" ∨ value = "NOLB" ∨
      value = "MAINT" then
    0
  else
    0

/-- Value of a list of decimal digit characters, read left to right;
`none` as soon as a non-digit appears.  The empty list yields `some 0`
(emptiness is checked separately by the callers). -/
def digitsVal (cs : List Char) : Option Nat :=
  cs.foldl
    (fun acc c =>
      acc.bind fun n => if c.isDigit then some (n * 10 + (c.toNat - 48)) else none)
    (some 0)

/-- Strip one optional leading sign, returning the sign as `1` or `-1`. -/
def splitSign : List Char → Int × List Char
  | '-' :: rest => (-1, rest)
  | '+' :: rest => (1, rest)
  | cs => (1, cs)

/-- Model of Go `strconv.ParseInt(s, 10, 64)` (and of `strconv.Atoi` on a
64-bit platform): optional sign, one or more decimal digits, result within
the signed 64-bit range; anything else is an error (`none`). -/
def goParseInt (s : String) : Option Int :=
  let (sign, ds) := splitSign s.data
  if ds = [] then none
  else
    match digitsVal ds with
    | none => none
    | some n =>
      let v : Int := sign * n
      if -(2 ^ 63) ≤ v ∧ v ≤ 2 ^ 63 - 1 then some v else none

/-- Model of Go `strconv.ParseFloat(s, 64)` on decimal notation, with exact
rational values: optional sign, digits with an optional fractional part (at
least one mantissa digit), optional decimal exponent `e`/`E` with optional
sign and mandatory digits.  (Binary rounding, infinities, NaN and hex
floats are outside the inputs exercised here and are not modelled.) -/
def goParseFloat (s : String) : Option ℚ := do
  let (sign, cs) := splitSign s.data
  let ei := cs.findIdx fun c => c == 'e' || c == 'E'
  let mant := cs.take ei
  let exp : Int ←
    match cs.drop ei with
    | [] => some 0
    | _ :: ecs =>
      let (esign, eds) := splitSign ecs
      if eds = [] then none
      else (digitsVal eds).map fun n => esign * (n : Int)
  let di := mant.findIdx fun c => c == '.'
  let ip := mant.take di
  let fp := (mant.drop di).drop 1
  if ip = [] ∧ fp = [] then none
  else do
    let iv ← digitsVal ip
    let fv ← digitsVal fp
    let base : ℚ := (iv : ℚ) + (fv : ℚ) / ((10 : ℚ) ^ fp.length)
    some ((sign : ℚ) * base * (10 : ℚ) ^ exp)

/-- A metric descriptor (`*prometheus.Desc`): fully-qualified metric name
plus the constant labels fixed per table entry (help strings are dropped,
they carry no behaviour). -/
structure MetricDesc where
  fqName : String
  constLabels : List (String × String)
deriving DecidableEq, Repr

/-- `prometheus.BuildFQName`: joins the non-empty parts with `_`. -/
def buildFQName (ns sub name : String) : String :=
  (if ns = "" then "" else ns ++ "_") ++ (if sub = "" then "" else sub ++ "_") ++ name

/-- The `namespace` constant from the source. -/
def namespaceStr : String := "haproxy"

/-- `newFrontendMetric` from the source (label names `["frontend"]`). -/
def newFrontendMetric (metricName : String) (constLabels : List (String × String)) :
    MetricDesc :=
  ⟨buildFQName namespaceStr "frontend" metricName, constLabels⟩

/-- `newBackendMetric` from the source (label names `["backend"]`). -/
def newBackendMetric (metricName : String) (constLabels : List (String × String)) :
    MetricDesc :=
  ⟨buildFQName namespaceStr "backend" metricName, constLabels⟩

/-- `newServerMetric` from the source (label names `["backend","server"]`). -/
def newServerMetric (metricName : String) (constLabels : List (String × String)) :
    MetricDesc :=
  ⟨buildFQName namespaceStr "server" metricName, constLabels⟩

/-- The `serverMetrics` table from the source, as an association list in
the order the source writes it. -/
def serverMetricsTable : List (Nat × MetricDesc) :=
  [ (2, newServerMetric "current_queue" []),
    (3, newServerMetric "max_queue" []),
    (4, newServerMetric "current_sessions" []),
    (5, newServerMetric "max_sessions" []),
    (6, newServerMetric "limit_sessions" []),
    (7, newServerMetric "sessions_total" []),
    (8, newServerMetric "bytes_in_total" []),
    (9, newServerMetric "bytes_out_total" []),
    (13, newServerMetric "connection_errors_total" []),
    (14, newServerMetric "response_errors_total" []),
    (15, newServerMetric "retry_warnings_total" []),
    (16, newServerMetric "redispatch_warnings_total" []),
    (17, newServerMetric "up" []),
    (18, newServerMetric "weight" []),
    (21, newServerMetric "check_failures_total" []),
    (24, newServerMetric "downtime_seconds_total" []),
    (30, newServerMetric "server_selected_total" []),
    (33, newServerMetric "current_session_rate" []),
    (35, newServerMetric "max_session_rate" []),
    (38, newServerMetric "check_duration_milliseconds" []),
    (39, newServerMetric "http_responses_total" [("code", "1xx")]),
    (40, newServerMetric "http_responses_total" [("code", "2xx")]),
    (41, newServerMetric "http_responses_total" [("code", "3xx")]),
    (42, newServerMetric "http_responses_total" [("code", "4xx")]),
    (43, newServerMetric "http_responses_total" [("code", "5xx")]),
    (44, newServerMetric "http_responses_total" [("code", "other")]) ]

/-- The `frontendMetrics` table from the source. -/
def frontendMetricsTable : List (Nat × MetricDesc) :=
  [ (4, newFrontendMetric "current_sessions" []),
    (5, newFrontendMetric "max_sessions" []),
    (6, newFrontendMetric "limit_sessions" []),
    (7, newFrontendMetric "sessions_total" []),
    (8, newFrontendMetric "bytes_in_total" []),
    (9, newFrontendMetric "bytes_out_total" []),
    (10, newFrontendMetric "requests_denied_total" []),
    (12, newFrontendMetric "request_errors_total" []),
    (33, newFrontendMetric "current_session_rate" []),
    (34, newFrontendMetric "limit_session_rate" []),
    (35, newFrontendMetric "max_session_rate" []),
    (39, newFrontendMetric "http_responses_total" [("code", "1xx")]),
    (40, newFrontendMetric "http_responses_total" [("code", "2xx")]),
    (41, newFrontendMetric "http_responses_total" [("code", "3xx")]),
    (42, newFrontendMetric "http_responses_total" [("code", "4xx")]),
    (43, newFrontendMetric "http_responses_total" [("code", "5xx")]),
    (44, newFrontendMetric "http_responses_total" [("code", "other")]),
    (48, newFrontendMetric "http_requests_total" []),
    (51, newFrontendMetric "compressor_bytes_in_total" []),
    (52, newFrontendMetric "compressor_bytes_out_total" []),
    (53, newFrontendMetric "compressor_bytes_bypassed_total" []),
    (54, newFrontendMetric "http_responses_compressed_total" []),
    (79, newFrontendMetric "connections_total" []) ]

/-- The `backendMetrics` table from the source. -/
def backendMetricsTable : List (Nat × MetricDesc) :=
  [ (2, newBackendMetric "current_queue" []),
    (3, newBackendMetric "max_queue" []),
    (4, newBackendMetric "current_sessions" []),
    (5, newBackendMetric "max_sessions" []),
    (6, newBackendMetric "limit_sessions" []),
    (7, newBackendMetric "sessions_total" []),
    (8, newBackendMetric "bytes_in_total" []),
    (9, newBackendMetric "bytes_out_total" []),
    (13, newBackendMetric "connection_errors_total" []),
    (14, newBackendMetric "response_errors_total" []),
    (15, newBackendMetric "retry_warnings_total" []),
    (16, newBackendMetric "redispatch_warnings_total" []),
    (17, newBackendMetric "up" []),
    (18, newBackendMetric "weight" []),
    (19, newBackendMetric "current_server" []),
    (30, newBackendMetric "server_selected_total" []),
    (33, newBackendMetric "current_session_rate" []),
    (35, newBackendMetric "max_session_rate" []),
    (39, newBackendMetric "http_responses_total" [("code", "1xx")]),
    (40, newBackendMetric "http_responses_total" [("code", "2xx")]),
    (41, newBackendMetric "http_responses_total" [("code", "3xx")]),
    (42, newBackendMetric "http_responses_total" [("code", "4xx")]),
    (43, newBackendMetric "http_responses_total" [("code", "5xx")]),
    (44, newBackendMetric "http_responses_total" [("code", "other")]),
    (51, newBackendMetric "compressor_bytes_in_total" []),
    (52, newBackendMetric "compressor_bytes_out_total" []),
    (53, newBackendMetric "compressor_bytes_bypassed_total" []),
    (54, newBackendMetric "http_responses_compressed_total" []),
    (58, newBackendMetric "http_queue_time_average_seconds" []),
    (59, newBackendMetric "http_connect_time_average_seconds" []),
    (60, newBackendMetric "http_response_time_average_seconds" []),
    (61, newBackendMetric "http_total_time_average_seconds" []) ]

/-- One emitted metric sample (`prometheus.MustNewConstMetric(desc, GaugeValue,
value, labels...)`): fully-qualified name, variable label values in order,
constant labels from the descriptor, and the numeric value. -/
structure Observation where
  fqName : String
  labelValues : List String
  constLabels : List (String × String)
  value : ℚ
deriving DecidableEq, Repr

/-- The `switch fieldIdx` conversion inside `exportCsvFields`, factored
into a named function: the status translator for `statusField`, parse as a
float and divide by 1000 for the four `…MsField` timing columns, parse as
a base-10 integer for every other column; `none` is the `err != nil` case
(note the status branch never fails). -/
def convertField (fieldIdx : Nat) (valueStr : String) : Option ℚ :=
  if fieldIdx = statusField then
    some ((parseStatusField valueStr : Int) : ℚ)
  else if fieldIdx = qtimeMsField ∨ fieldIdx = ctimeMsField ∨
      fieldIdx = rtimeMsField ∨ fieldIdx = ttimeMsField then
    (goParseFloat valueStr).map fun v => v / 1000
  else
    (goParseInt valueStr).map fun n => (n : ℚ)

/-- `exportCsvFields` from the source: walk the field table; skip a column
that lies beyond the row (`fieldIdx > len(csvRow)-1` over Go ints, i.e.
`csvRow.length ≤ fieldIdx`) or whose cell is empty; otherwise convert the
cell with `convertField`; a conversion error counts one parse failure and
skips only this field.  Returns the emitted observations in table order
and the number of parse failures. -/
def exportCsvFields (metrics : List (Nat × MetricDesc)) (csvRow : List String)
    (labels : List String) : List Observation × Nat :=
  match metrics with
  | [] => ([], 0)
  | (fieldIdx, metric) :: rest =>
    let res := exportCsvFields rest csvRow labels
    if csvRow.length ≤ fieldIdx then res
    else
      let valueStr := csvRow.getD fieldIdx ""
      if valueStr = "" then res
      else
        match convertField fieldIdx valueStr with
        | none => (res.1, res.2 + 1)
        | some value => (⟨metric.fqName, labels, metric.constLabels, value⟩ :: res.1, res.2)

/-- `parseRow` from the source.  `sel` is the exporter's
`e.serverMetrics` (the selected server metrics).  A row shorter than
`minimumCsvFieldCount` counts one parse failure and emits nothing;
otherwise the discriminant `csvRow[32]` dispatches to the category table
("0" frontend with label `pxname`, "1" backend with label `pxname`,
"2" server with labels `pxname, svname`), any other value doing nothing. -/
def parseRow (sel : List (Nat × MetricDesc)) (csvRow : List String) :
    List Observation × Nat :=
  if csvRow.length < minimumCsvFieldCount then ([], 1)
  else
    let pxname := csvRow.getD 0 ""
    let svname := csvRow.getD 1 ""
    let typ := csvRow.getD 32 ""
    if typ = "0" then exportCsvFields frontendMetricsTable csvRow [pxname]
    else if typ = "1" then exportCsvFields backendMetricsTable csvRow [pxname]
    else if typ = "2" then exportCsvFields sel csvRow [pxname, svname]
    else ([], 0)

/-- One result of `reader.Read()` on the fetched body, before `io.EOF`:
a decoded row, a `*csv.ParseError` (malformed line), or any other
(structurally fatal) read error. -/
inductive ReadEvent where
  | row (fields : List String)
  | parseError
  | fatalError
deriving DecidableEq, Repr

/-- The decoded row carried by a `ReadEvent`, when it is one. -/
def rowOf : ReadEvent → Option (List String)
  | .row r => some r
  | _ => none

/-- The process-lifetime counters of the exporter
(`e.totalScrapes`, `e.csvParseFailures`). -/
structure ExporterState where
  totalScrapes : Nat
  csvParseFailures : Nat
deriving DecidableEq, Repr

/-- The read loop of `scrape`: rows go through `parseRow` (observations
streamed in order, failures accumulated), a `*csv.ParseError` increments
the failure count and continues, any other error returns `up = 0` at once
(the remaining events are never read, already-emitted observations stay
emitted), end of events is `io.EOF` and yields `up = 1`.  Returns the
emitted observations, the number of failure increments, and the `up`
return value as a Bool. -/
def scrapeLoop (sel : List (Nat × MetricDesc)) :
    List ReadEvent → List Observation × Nat × Bool
  | [] => ([], 0, true)
  | .row r :: rest =>
    let res := parseRow sel r
    let rec' := scrapeLoop sel rest
    (res.1 ++ rec'.1, res.2 + rec'.2.1, rec'.2.2)
  | .parseError :: rest =>
    let rec' := scrapeLoop sel rest
    (rec'.1, rec'.2.1 + 1, rec'.2.2)
  | .fatalError :: _ => ([], 0, false)

/-- `scrape` from the source: increment `totalScrapes`, then either fail
the fetch (`up = 0`, nothing emitted) or run the read loop on the decoded
body.  Returns the updated counters, the row-derived observations, and the
`up` value. -/
def scrape (sel : List (Nat × MetricDesc)) (fetched : Option (List ReadEvent))
    (st : ExporterState) : ExporterState × List Observation × ℚ :=
  let st1 : ExporterState := { st with totalScrapes := st.totalScrapes + 1 }
  match fetched with
  | none => (st1, [], 0)
  | some events =>
    let res := scrapeLoop sel events
    ({ st1 with csvParseFailures := st1.csvParseFailures + res.2.1 },
     res.1, if res.2.2 then 1 else 0)

/-- Name of the `haproxyUp` metric (`BuildFQName(namespace, "", "up")`). -/
def haproxyUpName : String := buildFQName namespaceStr "" "up"

/-- Name of the `totalScrapes` counter. -/
def totalScrapesName : String := "haproxy_exporter_total_scrapes"

/-- Name of the `csvParseFailures` counter. -/
def csvParseFailuresName : String := "haproxy_exporter_csv_parse_failures"

/-- `Collect` from the source: run `scrape`, then send the `up` gauge, the
`totalScrapes` counter and the `csvParseFailures` counter (in this order,
after the row-derived observations that `scrape` streamed). -/
def Collect (sel : List (Nat × MetricDesc)) (fetched : Option (List ReadEvent))
    (st : ExporterState) : ExporterState × List Observation :=
  let res := scrape sel fetched st
  (res.1,
   res.2.1 ++
     [⟨haproxyUpName, [], [], res.2.2⟩,
      ⟨totalScrapesName, [], [], (res.1.totalScrapes : ℚ)⟩,
      ⟨csvParseFailuresName, [], [], (res.1.csvParseFailures : ℚ)⟩])

/-- The fetch strategy selected by `NewExporter`'s `switch u.Scheme`. -/
inductive FetchKind where
  | viaHTTP
  | viaUnix
deriving DecidableEq, Repr

/-- The scheme dispatch of `NewExporter` (URI parsing by `url.Parse` is
elided: `scheme` is the parsed scheme).  Schemes `http`, `https`, `file`
use `fetchHTTP`, `unix` uses `fetchUnix`; anything else fails construction
at once with the Go error `fmt.Errorf("unsupported scheme: %q", u.Scheme)`. -/
def NewExporter (scheme : String) : Except String FetchKind :=
  if scheme = "http" ∨ scheme = "https" ∨ scheme = "file" then .ok .viaHTTP
  else if scheme = "unix" then .ok .viaUnix
  else .error ("unsupported scheme: \"" ++ scheme ++ "\"")

/-- `strings.Split` on the separator `","`, over the character list:
`Split("", ",")` is `[""]`, and in general the list of (possibly empty)
chunks between commas. -/
def splitCommaChars : List Char → List (List Char)
  | [] => [[]]
  | c :: rest =>
    let r := splitCommaChars rest
    if c = ',' then [] :: r
    else
      match r with
      | [] => [[c]]
      | h :: t => (c :: h) :: t

/-- Model of Go `strings.Split(s, ",")`. -/
def goSplitComma (s : String) : List String :=
  (splitCommaChars s.data).map fun cs => String.mk cs

/-- The entry-parsing loop of `filterServerMetrics`: each comma-separated
entry must pass `strconv.Atoi`; the first failure aborts with the Go error
`fmt.Errorf("invalid server metric field number: %v", f)`. -/
def parseFilterEntries : List String → Except String (List Int)
  | [] => .ok []
  | f :: rest =>
    match goParseInt f with
    | none => .error ("invalid server metric field number: " ++ f)
    | some field =>
      match parseFilterEntries rest with
      | .error e => .error e
      | .ok sel => .ok (field :: sel)

/-- `filterServerMetrics` from the source: the empty filter yields the
empty selection; otherwise every comma-separated entry is parsed with
`strconv.Atoi` (any failure fails the whole call) and the `serverMetrics`
table is restricted to the selected field numbers. -/
def filterServerMetrics (filter : String) : Except String (List (Nat × MetricDesc)) :=
  if filter.length = 0 then .ok []
  else
    match parseFilterEntries (goSplitComma filter) with
    | .error e => .error e
    | .ok selected => .ok (serverMetricsTable.filter fun p => (p.1 : Int) ∈ selected)

/-! ## Theorems -/

/-- C1 (counterexample): the token `"UP 1/2"` has the operational
`UP n/m` shape, yet `parseStatusField` maps it to 0, not to 1 — only the
literal strings `"UP 1/3"` and `"UP 2/3"` are matched by the `switch`. -/
theorem parseStatusField_up_one_half_not_one :
    parseStatusField "UP 1/2" = 0 ∧ ¬ parseStatusField "UP 1/2" = 1 := by
  decide

/-- C1 (amended): `parseStatusField` is total — every string yields 0 or
1, never an error — and it returns 1 exactly for the five literal tokens
`"UP"`, `"UP 1/3"`, `"UP 2/3"`, `"OPEN"`, `"no check"`; every other
string (including other `"UP n/m"` forms such as `"UP 1/2"`, all
`"DOWN n/m"` forms, `"NOLB"`, `"MAINT"`, and unrecognized tokens) maps
to 0. -/
theorem parseStatusField_total_spec (value : String) :
    (parseStatusField value = 0 ∨ parseStatusField value = 1) ∧
    (parseStatusField value = 1 ↔
      value = "UP" ∨ value = "UP 1/3" ∨ value = "UP 2/3" ∨ value = "OPEN" ∨
        value = "no check") := by
  unfold parseStatusField
  repeat' split
  all_goals simp_all

/-- C4: when the fetch fails (connection error, timeout, or non-2xx HTTP
status all surface as a fetch error), `Collect` emits no row-derived
observations, reports `up = 0`, still emits the up / total-scrapes /
parse-failures observations, increments the total-scrapes counter exactly
once, and leaves the parse-failures counter unchanged. -/
theorem collect_fetch_failure (sel : List (Nat × MetricDesc)) (st : ExporterState) :
    Collect sel none st =
      ({ totalScrapes := st.totalScrapes + 1,
         csvParseFailures := st.csvParseFailures },
       [⟨haproxyUpName, [], [], 0⟩,
        ⟨totalScrapesName, [], [], ((st.totalScrapes + 1 : Nat) : ℚ)⟩,
        ⟨csvParseFailuresName, [], [], ((st.csvParseFailures : Nat) : ℚ)⟩]) := rfl

/-- C7: construction succeeds exactly when the scheme is in the allow-list
`{http, https, file, unix}`; any other scheme fails at construction time
(the returned value is an error, so no exporter — and hence no `up = 1`
observation — can ever arise from it) with a message naming the rejected
scheme. -/
theorem newExporter_scheme_spec (scheme : String) :
    ((∃ k, NewExporter scheme = .ok k) ↔
      scheme ∈ ["http", "https", "file", "unix"]) ∧
    (scheme ∉ ["http", "https", "file", "unix"] →
      NewExporter scheme = .error ("unsupported scheme: \"" ++ scheme ++ "\"")) := by
  unfold NewExporter
  repeat' split
  all_goals simp_all
  all_goals tauto

/-- C7 (witness): the scheme `"gopher"` is rejected at construction time
with an error naming it. -/
theorem newExporter_scheme_witness :
    NewExporter "gopher" = .error "unsupported scheme: \"gopher\"" := by
  have h := (newExporter_scheme_spec "gopher").2 (by decide)
  rw [h]
  exact congrArg Except.error (by decide)

/-- C2: for every field table, row and label list, `exportCsvFields` emits
exactly one observation per table entry whose column index lies within the
row and whose raw cell is non-empty and convertible (status column through
the status translator, timing columns 58–61 as a float divided by 1000,
every other column as a base-10 integer — that is `convertField`); an
absent or empty cell yields no observation; a conversion failure counts
one parse failure and skips only that single field, the remaining entries
of the table still being processed. -/
theorem exportCsvFields_spec (metrics : List (Nat × MetricDesc)) (csvRow : List String)
    (labels : List String) :
    (exportCsvFields metrics csvRow labels).1 =
      metrics.filterMap (fun e =>
        if e.1 < csvRow.length ∧ csvRow.getD e.1 "" ≠ "" then
          (convertField e.1 (csvRow.getD e.1 "")).map
            (fun v => ⟨e.2.fqName, labels, e.2.constLabels, v⟩)
        else none) ∧
    (exportCsvFields metrics csvRow labels).2 =
      metrics.countP (fun e =>
        decide (e.1 < csvRow.length) && decide (csvRow.getD e.1 "" ≠ "") &&
          (convertField e.1 (csvRow.getD e.1 "")).isNone) := by
  induction metrics with
  | nil => simp [exportCsvFields]
  | cons hd tl ih =>
    obtain ⟨fieldIdx, metric⟩ := hd
    simp only [exportCsvFields, List.filterMap_cons, List.countP_cons]
    by_cases hlen : csvRow.length ≤ fieldIdx
    · simp [hlen, Nat.not_lt.mpr hlen, ih]
    · have hlt : fieldIdx < csvRow.length := Nat.not_le.mp hlen
      rw [List.getD_eq_getElem csvRow "" hlt]
      by_cases hne : csvRow[fieldIdx] = ""
      · simp [hlen, hne, hlt, ih]
      · cases hcv : convertField fieldIdx csvRow[fieldIdx] with
        | none => simp [hlen, hne, hlt, hcv, ih]
        | some v => simp [hlen, hne, hlt, hcv, ih]

/-- C3: a decoded row shorter than `minimumCsvFieldCount` (33) counts as
one parse failure and is skipped; otherwise it is classified by the
discriminant at column 32 — `"0"` frontend (label `pxname`), `"1"`
backend (label `pxname`), `"2"` server (labels `pxname`, `svname`) — and
any other discriminant emits no metric and counts no failure. -/
theorem parseRow_spec (sel : List (Nat × MetricDesc)) (csvRow : List String) :
    (csvRow.length < minimumCsvFieldCount → parseRow sel csvRow = ([], 1)) ∧
    (minimumCsvFieldCount ≤ csvRow.length →
      parseRow sel csvRow =
        if csvRow.getD 32 "" = "0" then
          exportCsvFields frontendMetricsTable csvRow [csvRow.getD 0 ""]
        else if csvRow.getD 32 "" = "1" then
          exportCsvFields backendMetricsTable csvRow [csvRow.getD 0 ""]
        else if csvRow.getD 32 "" = "2" then
          exportCsvFields sel csvRow [csvRow.getD 0 "", csvRow.getD 1 ""]
        else ([], 0)) := by
  constructor
  · intro h
    simp [parseRow, h]
  · intro h
    simp [parseRow, Nat.not_lt.mpr h]

/-- C3 (witness): a one-field row counts a single parse failure and is
skipped; a 33-field row whose discriminant is empty (unrecognized) emits
nothing and counts no failure. -/
theorem parseRow_spec_witness :
    parseRow serverMetricsTable ["a"] = ([], 1) ∧
    parseRow serverMetricsTable (List.replicate 33 "") = ([], 0) := by
  constructor
  · exact (parseRow_spec serverMetricsTable ["a"]).1 (by decide)
  · have h := (parseRow_spec serverMetricsTable (List.replicate 33 "")).2 (by decide)
    rw [h]
    decide

/-- Unfolding of `scrapeLoop` on an event list without a fatal read error:
every decoded row goes through `parseRow`, every `*csv.ParseError` counts
one failure and is skipped, and the loop reaches `io.EOF` with `up = 1`. -/
theorem scrapeLoop_no_fatal (sel : List (Nat × MetricDesc)) (events : List ReadEvent)
    (h : ReadEvent.fatalError ∉ events) :
    scrapeLoop sel events =
      (((events.filterMap rowOf).map fun r => (parseRow sel r).1).join,
       events.countP (fun e => decide (e = ReadEvent.parseError)) +
         ((events.filterMap rowOf).map fun r => (parseRow sel r).2).sum,
       true) := by
  induction events with
  | nil => simp [scrapeLoop]
  | cons e rest ih =>
    have hrest : ReadEvent.fatalError ∉ rest := fun hm => h (List.mem_cons_of_mem _ hm)
    cases e with
    | row r =>
      simp [scrapeLoop, rowOf, ih hrest, List.countP_cons]
      omega
    | parseError =>
      simp [scrapeLoop, rowOf, ih hrest, List.countP_cons]
      omega
    | fatalError => exact absurd (List.mem_cons_self _ _) h

/-- Unfolding of `scrapeLoop` when a fatal read error follows a fatal-free
prefix: the prefix is processed normally, the error returns `up = 0` at
once, and no later event is read. -/
theorem scrapeLoop_fatal (sel : List (Nat × MetricDesc)) (pre post : List ReadEvent)
    (h : ReadEvent.fatalError ∉ pre) :
    scrapeLoop sel (pre ++ ReadEvent.fatalError :: post) =
      (((pre.filterMap rowOf).map fun r => (parseRow sel r).1).join,
       pre.countP (fun e => decide (e = ReadEvent.parseError)) +
         ((pre.filterMap rowOf).map fun r => (parseRow sel r).2).sum,
       false) := by
  induction pre with
  | nil => simp [scrapeLoop]
  | cons e rest ih =>
    have hrest : ReadEvent.fatalError ∉ rest := fun hm => h (List.mem_cons_of_mem _ hm)
    cases e with
    | row r =>
      simp [scrapeLoop, rowOf, ih hrest, List.countP_cons]
      omega
    | parseError =>
      simp [scrapeLoop, rowOf, ih hrest, List.countP_cons]
      omega
    | fatalError => exact absurd (List.mem_cons_self _ _) h

/-- C5: a payload whose decoded event stream holds exactly one malformed
CSV line (a row-level `*csv.ParseError`) among rows that each parse without
failure: one `Collect` emits the observations of all the valid rows, reports
`up = 1`, and increments the parse-failure counter by exactly 1 — the
malformed line does not abort the scrape. -/
theorem collect_malformed_row_resilience (sel : List (Nat × MetricDesc))
    (st : ExporterState) (events : List ReadEvent)
    (hrows : ∀ r ∈ events.filterMap rowOf, (parseRow sel r).2 = 0)
    (hone : events.countP (fun e => decide (e = ReadEvent.parseError)) = 1)
    (hnf : ReadEvent.fatalError ∉ events) :
    Collect sel (some events) st =
      ({ totalScrapes := st.totalScrapes + 1,
         csvParseFailures := st.csvParseFailures + 1 },
       ((events.filterMap rowOf).map fun r => (parseRow sel r).1).join ++
         [⟨haproxyUpName, [], [], 1⟩,
          ⟨totalScrapesName, [], [], ((st.totalScrapes + 1 : Nat) : ℚ)⟩,
          ⟨csvParseFailuresName, [], [], ((st.csvParseFailures + 1 : Nat) : ℚ)⟩]) := by
  have hsum : ((events.filterMap rowOf).map fun r => (parseRow sel r).2).sum = 0 := by
    apply List.sum_eq_zero
    intro x hx
    obtain ⟨r, hr, rfl⟩ := List.mem_map.mp hx
    exact hrows r hr
  simp [Collect, scrape, scrapeLoop_no_fatal sel events hnf, hsum, hone]

/-- C5 (witness): a payload of one valid (33 empty fields) row plus one
malformed line: the scrape succeeds with `up = 1` and exactly one new
parse failure. -/
theorem collect_malformed_row_resilience_witness :
    Collect serverMetricsTable
        (some [ReadEvent.row (List.replicate 33 ""), ReadEvent.parseError]) ⟨0, 0⟩ =
      (⟨1, 1⟩,
       [⟨haproxyUpName, [], [], 1⟩, ⟨totalScrapesName, [], [], 1⟩,
        ⟨csvParseFailuresName, [], [], 1⟩]) := by
  have h := collect_malformed_row_resilience serverMetricsTable ⟨0, 0⟩
      [ReadEvent.row (List.replicate 33 ""), ReadEvent.parseError]
      (by decide) (by decide) (by decide)
  rw [h]
  decide

/-- C6 (counterexample): a structurally fatal read error as the only event
aborts the scrape and marks it failed, but the parse-failure counter is NOT
incremented for that error: it stays 0 where the claim demands exactly 1
(the `default` branch of the read loop returns without
`csvParseFailures.Inc()`). -/
theorem scrape_fatal_no_failure_increment :
    (scrape serverMetricsTable (some [ReadEvent.fatalError]) ⟨0, 0⟩).1.csvParseFailures = 0 ∧
    ¬ (scrape serverMetricsTable (some [ReadEvent.fatalError]) ⟨0, 0⟩).1.csvParseFailures = 1 := by
  decide

/-- C6 (amended): a structurally fatal read error (not a single-row
malformation) aborts the remainder of the scrape (events after the error
are never read), does NOT increment the parse-failure counter for that
error (only failures from the part before it are counted), marks the
scrape as failed (`up = 0`), and still reports the observations
accumulated before the error. -/
theorem collect_fatal_read_error (sel : List (Nat × MetricDesc))
    (st : ExporterState) (pre post : List ReadEvent)
    (h : ReadEvent.fatalError ∉ pre) :
    Collect sel (some (pre ++ ReadEvent.fatalError :: post)) st =
      ({ totalScrapes := st.totalScrapes + 1,
         csvParseFailures := st.csvParseFailures +
           (pre.countP (fun e => decide (e = ReadEvent.parseError)) +
             ((pre.filterMap rowOf).map fun r => (parseRow sel r).2).sum) },
       ((pre.filterMap rowOf).map fun r => (parseRow sel r).1).join ++
         [⟨haproxyUpName, [], [], 0⟩,
          ⟨totalScrapesName, [], [], ((st.totalScrapes + 1 : Nat) : ℚ)⟩,
          ⟨csvParseFailuresName, [], [],
            ((st.csvParseFailures +
              (pre.countP (fun e => decide (e = ReadEvent.parseError)) +
                ((pre.filterMap rowOf).map fun r => (parseRow sel r).2).sum) : Nat) : ℚ)⟩]) := by
  simp [Collect, scrape, scrapeLoop_fatal sel pre post h]

/-- C6 (witness): one malformed line, then one valid row, then the fatal
error, then an unread valid row: the scrape fails with `up = 0`, only the
malformed line's failure is counted (total 1, nothing for the fatal
error), and no observation from after the error appears. -/
theorem collect_fatal_read_error_witness :
    Collect serverMetricsTable
        (some [ReadEvent.parseError, ReadEvent.row (List.replicate 33 ""),
               ReadEvent.fatalError, ReadEvent.row (List.replicate 33 "")]) ⟨0, 0⟩ =
      (⟨1, 1⟩,
       [⟨haproxyUpName, [], [], 0⟩, ⟨totalScrapesName, [], [], 1⟩,
        ⟨csvParseFailuresName, [], [], 1⟩]) := by
  have h := collect_fatal_read_error serverMetricsTable ⟨0, 0⟩
      [ReadEvent.parseError, ReadEvent.row (List.replicate 33 "")]
      [ReadEvent.row (List.replicate 33 "")] (by decide)
  rw [show [ReadEvent.parseError, ReadEvent.row (List.replicate 33 ""),
        ReadEvent.fatalError, ReadEvent.row (List.replicate 33 "")] =
      [ReadEvent.parseError, ReadEvent.row (List.replicate 33 "")] ++
        ReadEvent.fatalError :: [ReadEvent.row (List.replicate 33 "")] from rfl, h]
  decide

/-- A string has length zero exactly when it is empty (`len(filter) == 0`
in the source versus the empty string). -/
theorem string_length_eq_zero_iff (s : String) : s.length = 0 ↔ s = "" := by
  cases s with
  | mk data =>
    cases data with
    | nil => simp
    | cons c t =>
      constructor
      · intro h
        simp [String.length] at h
      · intro h
        rw [h]
        rfl

/-- `parseFilterEntries` succeeds when every entry parses as an integer,
returning the parsed entries in order. -/
theorem parseFilterEntries_ok (l : List String)
    (h : ∀ f ∈ l, (goParseInt f).isSome = true) :
    parseFilterEntries l = .ok (l.filterMap goParseInt) := by
  induction l with
  | nil => simp [parseFilterEntries]
  | cons f rest ih =>
    obtain ⟨n, hn⟩ := Option.isSome_iff_exists.mp (h f (List.mem_cons_self _ _))
    have hrest := ih fun g hg => h g (List.mem_cons_of_mem _ hg)
    simp [parseFilterEntries, hn, hrest]

/-- `parseFilterEntries` fails when some entry does not parse. -/
theorem parseFilterEntries_err (l : List String)
    (h : ∃ f ∈ l, goParseInt f = none) :
    ∃ msg, parseFilterEntries l = .error msg := by
  induction l with
  | nil => simp at h
  | cons f rest ih =>
    by_cases hf : goParseInt f = none
    · exact ⟨"invalid server metric field number: " ++ f,
        by simp [parseFilterEntries, hf]⟩
    · obtain ⟨n, hn⟩ := Option.ne_none_iff_exists'.mp hf
      obtain ⟨g, hg, hgn⟩ := h
      rcases List.mem_cons.mp hg with rfl | hg'
      · exact absurd hgn hf
      · obtain ⟨msg, hmsg⟩ := ih ⟨g, hg', hgn⟩
        exact ⟨msg, by simp [parseFilterEntries, hn, hmsg]⟩

/-- C8: the empty filter string yields the empty selected-metric set (a
success, distinct from an error); if every comma-separated entry parses as
an integer the operation succeeds; if any entry does not parse the whole
operation fails with an error and no partial set is returned. -/
theorem filterServerMetrics_spec (filter : String) :
    (filter = "" → filterServerMetrics filter = .ok []) ∧
    ((∀ f ∈ goSplitComma filter, (goParseInt f).isSome = true) →
      ∃ sel, filterServerMetrics filter = .ok sel) ∧
    (filter ≠ "" → (∃ f ∈ goSplitComma filter, goParseInt f = none) →
      ∃ msg, filterServerMetrics filter = .error msg) := by
  refine ⟨?_, ?_, ?_⟩
  · intro h
    subst h
    rfl
  · intro h
    by_cases he : filter = ""
    · subst he
      exact ⟨[], rfl⟩
    · have hl : ¬ filter.length = 0 := by
        simpa [string_length_eq_zero_iff] using he
      exact ⟨serverMetricsTable.filter
          fun p => (p.1 : Int) ∈ (goSplitComma filter).filterMap goParseInt,
        by simp [filterServerMetrics, hl, parseFilterEntries_ok _ h]⟩
  · intro hne hex
    obtain ⟨msg, hmsg⟩ := parseFilterEntries_err _ hex
    have hl : ¬ filter.length = 0 := by
      simpa [string_length_eq_zero_iff] using hne
    exact ⟨msg, by simp [filterServerMetrics, hl, hmsg]⟩

/-- C8 (witness): `"8,21"` (all entries integers) succeeds; `"8,x"` fails
with an error, no partial set. -/
theorem filterServerMetrics_spec_witness :
    (∃ sel, filterServerMetrics "8,21" = .ok sel) ∧
    (∃ msg, filterServerMetrics "8,x" = .error msg) :=
  ⟨(filterServerMetrics_spec "8,21").2.1 (by decide),
   (filterServerMetrics_spec "8,x").2.2 (by decide) (by decide)⟩

/-- C10: when every comma-separated entry parses as an integer,
construction of the selected-metric set succeeds and returns exactly the
server-table entries whose column index appears among the parsed entries;
integer entries matching no server-table column (negative numbers,
out-of-range indices like 999) are silently dropped by the final filter,
not reported as errors. -/
theorem filterServerMetrics_selects (filter : String)
    (h : ∀ f ∈ goSplitComma filter, (goParseInt f).isSome = true) :
    filterServerMetrics filter =
      .ok (serverMetricsTable.filter
        fun p => (p.1 : Int) ∈ (goSplitComma filter).filterMap goParseInt) := by
  by_cases he : filter = ""
  · subst he
    exact absurd (h "" (by decide)) (by decide)
  · have hl : ¬ filter.length = 0 := by
      simpa [string_length_eq_zero_iff] using he
    simp [filterServerMetrics, hl, parseFilterEntries_ok _ h]

/-- C10 (witness): filter `"3,999,-7"` succeeds and selects only column 3
(`max_queue`); the integers 999 and −7 match no server-table column and
are silently ignored. -/
theorem filterServerMetrics_selects_witness :
    filterServerMetrics "3,999,-7" = .ok [(3, newServerMetric "max_queue" [])] := by
  have h := filterServerMetrics_selects "3,999,-7" (by decide)
  rw [h]
  exact congrArg Except.ok (by decide)

/-- Unfolding of `Collect` on a successful fetch, in terms of the read
loop's output. -/
theorem collect_some_unfold (sel : List (Nat × MetricDesc))
    (events : List ReadEvent) (st : ExporterState) :
    Collect sel (some events) st =
      (⟨st.totalScrapes + 1, st.csvParseFailures + (scrapeLoop sel events).2.1⟩,
       (scrapeLoop sel events).1 ++
         [⟨haproxyUpName, [], [], if (scrapeLoop sel events).2.2 then 1 else 0⟩,
          ⟨totalScrapesName, [], [], ((st.totalScrapes + 1 : Nat) : ℚ)⟩,
          ⟨csvParseFailuresName, [], [],
            ((st.csvParseFailures + (scrapeLoop sel events).2.1 : Nat) : ℚ)⟩]) := rfl

/-- Unfolding of `Collect` on a failed fetch. -/
theorem collect_none_unfold (sel : List (Nat × MetricDesc)) (st : ExporterState) :
    Collect sel none st =
      (⟨st.totalScrapes + 1, st.csvParseFailures⟩,
       [⟨haproxyUpName, [], [], 0⟩,
        ⟨totalScrapesName, [], [], ((st.totalScrapes + 1 : Nat) : ℚ)⟩,
        ⟨csvParseFailuresName, [], [], ((st.csvParseFailures : Nat) : ℚ)⟩]) := rfl

/-- C9 (counterexample): against the fixed payload consisting of one
malformed CSV line, two successive `Collect`s do NOT yield identical
observation sets once the total-scrapes observation is removed: the
parse-failures observation also differs (1 after the first collect, 2
after the second). -/
theorem collect_not_idempotent_on_failures :
    ¬ ((Collect serverMetricsTable (some [ReadEvent.parseError])
          (Collect serverMetricsTable (some [ReadEvent.parseError]) ⟨0, 0⟩).1).2.filter
            (fun o => !(o.fqName == totalScrapesName)) =
        (Collect serverMetricsTable (some [ReadEvent.parseError]) ⟨0, 0⟩).2.filter
          (fun o => !(o.fqName == totalScrapesName))) := by
  decide

/-- C9 (amended): two successive `Collect`s against an unchanged payload
yield identical observation sets except for the two lifetime counters: the
total-scrapes counter always increases by one, and the parse-failures
counter increases by the payload's per-scrape failure count; in
particular, when the first collect leaves the parse-failures counter
unchanged, the sets are identical except for the total-scrapes
observation alone — the row-derived observations and the `up` observation
are identical in all cases. -/
theorem collect_idempotent_mod_counters (sel : List (Nat × MetricDesc))
    (fetched : Option (List ReadEvent)) (st : ExporterState) :
    ((Collect sel fetched (Collect sel fetched st).1).2.filter
        (fun o => !(o.fqName == totalScrapesName) && !(o.fqName == csvParseFailuresName)) =
      (Collect sel fetched st).2.filter
        (fun o => !(o.fqName == totalScrapesName) && !(o.fqName == csvParseFailuresName))) ∧
    ((Collect sel fetched (Collect sel fetched st).1).1.totalScrapes =
      (Collect sel fetched st).1.totalScrapes + 1) ∧
    ((Collect sel fetched st).1.csvParseFailures = st.csvParseFailures →
      (Collect sel fetched (Collect sel fetched st).1).2.filter
          (fun o => !(o.fqName == totalScrapesName)) =
        (Collect sel fetched st).2.filter
          (fun o => !(o.fqName == totalScrapesName))) := by
  have hup1 : (!(haproxyUpName == totalScrapesName) &&
      !(haproxyUpName == csvParseFailuresName)) = true := by decide
  have hup2 : (!(haproxyUpName == totalScrapesName)) = true := by decide
  have hs1 : (!(totalScrapesName == totalScrapesName) &&
      !(totalScrapesName == csvParseFailuresName)) = false := by decide
  have hs2 : (!(totalScrapesName == totalScrapesName)) = false := by decide
  have hf1 : (!(csvParseFailuresName == totalScrapesName) &&
      !(csvParseFailuresName == csvParseFailuresName)) = false := by decide
  have hf2 : (!(csvParseFailuresName == totalScrapesName)) = true := by decide
  cases fetched with
  | none =>
    rw [collect_none_unfold sel st, collect_none_unfold sel _]
    refine ⟨?_, rfl, ?_⟩
    · simp [List.filter, hup1, hs1, hf1]
    · intro _
      simp [List.filter, hup2, hs2, hf2]
  | some events =>
    rw [collect_some_unfold sel events st, collect_some_unfold sel events _]
    refine ⟨?_, rfl, ?_⟩
    · simp [List.filter_append, List.filter, hup1, hs1, hf1]
    · intro hdelta
      have hzero : (scrapeLoop sel events).2.1 = 0 := by
        have : st.csvParseFailures + (scrapeLoop sel events).2.1 = st.csvParseFailures := by
          simpa [collect_some_unfold sel events st] using hdelta
        omega
      simp [List.filter_append, List.filter, hup2, hs2, hf2, hzero]

/-- C9 (witness): a payload of one valid empty-discriminant row causes no
parse failure, so two successive collects differ only in the total-scrapes
observation. -/
theorem collect_idempotent_mod_counters_witness :
    (Collect serverMetricsTable (some [ReadEvent.row (List.replicate 33 "")])
        (Collect serverMetricsTable (some [ReadEvent.row (List.replicate 33 "")]) ⟨0, 0⟩).1).2.filter
        (fun o => !(o.fqName == totalScrapesName)) =
      (Collect serverMetricsTable (some [ReadEvent.row (List.replicate 33 "")]) ⟨0, 0⟩).2.filter
        (fun o => !(o.fqName == totalScrapesName)) :=
  (collect_idempotent_mod_counters serverMetricsTable
      (some [ReadEvent.row (List.replicate 33 "")]) ⟨0, 0⟩).2.2 (by decide)

end HaproxyExp
